import Mathlib

/-!
Verification of the haversine distance library.

The library is a single Rust file defining a `Location` value type (two
`f64` fields, latitude and longitude in degrees), constructors from pairs
of doubles and pairs of singles, and three distance methods that scale a
shared dimensionless haversine central angle by a unit constant.

Embedding choices:
* Every `f64` quantity is modelled as a real number, so the theorems state
  the exact-arithmetic content of the code (the operation structure and
  operation order are taken verbatim from the source).
* Rust's `f64::atan2` is modelled by an explicit piecewise definition
  `Location.atan2` over the reals, following the documented quadrant rules.
* Rust's `f64::to_radians` is `self * (PI / 180.0)`, modelled verbatim.
* The one claim about binary32 literal values and the `f32 -> f64` widening
  is settled over the rationals: every binary32 and binary64 value in the
  normal range is a dyadic rational, so round-to-nearest of a decimal
  literal is an exact rational computation (`rndBinade` below), and the
  widening cast is exact (the identity on those rationals).
-/

/-- Rounds a rational `q` to the nearest value with `mant` bits of
mantissa, given the binade exponent `e` of `q` (that is, `2^e ≤ |q| <
2^(e+1)`; the theorems using this record those binade bounds as explicit
conjuncts). Models the IEEE-754 round-to-nearest conversion of a decimal
literal to a normal binary32 (`mant = 24`) or binary64 (`mant = 53`)
value; `round` breaks ties upward, which agrees with IEEE half-even at
every input used below since none of the scaled values is a tie. -/
def rndBinade (mant : ℕ) (e : ℤ) (q : ℚ) : ℚ :=
  ((round (q * (2 : ℚ) ^ ((mant : ℤ) - 1 - e)) : ℤ) : ℚ) * (2 : ℚ) ^ (e + 1 - (mant : ℤ))

noncomputable section

/-- Represents a point on the globe (source: `pub struct Location`),
with the two `f64` fields modelled as real numbers. -/
structure Location where
  latitude : ℝ
  longitude : ℝ

namespace Location

/-- Source: `impl From<(f64, f64)> for Location` — fields set verbatim. -/
def ofF64Pair (p : ℝ × ℝ) : Location :=
  { latitude := p.1, longitude := p.2 }

/-- Source: `impl From<(f32, f32)> for Location` — each component is a
binary32 value (an exact dyadic rational) widened by `as f64`; the
widening of a binary32 value to binary64 is exact, so it is modelled by
the exact embedding of that rational into the reals. -/
def ofF32Pair (p : ℚ × ℚ) : Location :=
  { latitude := (p.1 : ℝ), longitude := (p.2 : ℝ) }

/-- Source constant `KILOMETERS: f64 = 6371.0087714`. -/
def KILOMETERS : ℝ := 6371.0087714

/-- Source constant `MILES: f64 = 3958.76131603933`. -/
def MILES : ℝ := 3958.76131603933

/-- Source constant `NAUTICAL_MILES: f64 = Self::MILES * 1.1508`,
kept as the product, exactly as the source derives it. -/
def NAUTICAL_MILES : ℝ := MILES * 1.1508

/-- Rust `f64::to_radians`, defined in `core` as `self * (PI / 180.0)`. -/
def toRadians (x : ℝ) : ℝ := x * (Real.pi / 180)

/-- Rust `f64::atan2(self, other)` (`self` = y, `other` = x) modelled over
the reals by the documented quadrant rules of `atan2`. -/
def atan2 (y x : ℝ) : ℝ :=
  if 0 < x then Real.arctan (y / x)
  else if x < 0 ∧ 0 ≤ y then Real.arctan (y / x) + Real.pi
  else if x < 0 ∧ y < 0 then Real.arctan (y / x) - Real.pi
  else if x = 0 ∧ 0 < y then Real.pi / 2
  else if x = 0 ∧ y < 0 then -(Real.pi / 2)
  else 0

/-- Source: `fn distance(&self, other: Location) -> f64`, the shared
haversine core, transcribed line by line with the source's operation
order (`sin * sin` products, left-to-right association). -/
def distance (self other : Location) : ℝ :=
  let d_lat : ℝ := toRadians (other.latitude - self.latitude)
  let d_lon : ℝ := toRadians (other.longitude - self.longitude)
  let lat1 : ℝ := toRadians self.latitude
  let lat2 : ℝ := toRadians other.latitude
  let a : ℝ := (Real.sin (d_lat / 2)) * (Real.sin (d_lat / 2))
      + (Real.sin (d_lon / 2)) * (Real.sin (d_lon / 2)) * (Real.cos lat1) * (Real.cos lat2)
  let c : ℝ := 2 * (atan2 (Real.sqrt a) (Real.sqrt (1 - a)))
  c

/-- Source: `pub fn distance_mi(&self, other: Location) -> f64`. -/
def distance_mi (self other : Location) : ℝ :=
  MILES * self.distance other

/-- Source: `pub fn distance_nautical_mi(&self, other: Location) -> f64`. -/
def distance_nautical_mi (self other : Location) : ℝ :=
  NAUTICAL_MILES * self.distance other

/-- Source: `pub fn distance_km(&self, other: Location) -> f64`. -/
def distance_km (self other : Location) : ℝ :=
  KILOMETERS * self.distance other

/-- The central angle exactly as the specification text writes it:
`a = sin²(Δlat/2) + sin²(Δlon/2) · cos(lat1) · cos(lat2)` and
`c = 2 · atan2(√a, √(1 − a))`, with the differences and latitudes
converted to radians. Stated from the spec's words, to be compared
with the source-derived `Location.distance`. -/
def specCentralAngle (self other : Location) : ℝ :=
  let dLat : ℝ := toRadians (other.latitude - self.latitude)
  let dLon : ℝ := toRadians (other.longitude - self.longitude)
  let lat1 : ℝ := toRadians self.latitude
  let lat2 : ℝ := toRadians other.latitude
  let a : ℝ := (Real.sin (dLat / 2)) ^ 2
      + (Real.sin (dLon / 2)) ^ 2 * Real.cos lat1 * Real.cos lat2
  2 * atan2 (Real.sqrt a) (Real.sqrt (1 - a))

end Location

end

/-- Helper: the haversine core at coinciding endpoints evaluates to zero. -/
theorem Location.distance_self (a : Location) : a.distance a = 0 := by
  unfold Location.distance
  simp only [sub_self, toRadians, zero_mul, zero_div, Real.sin_zero, mul_zero,
    zero_add, add_zero, Real.sqrt_zero, sub_zero, Real.sqrt_one]
  unfold atan2
  norm_num

/-- C1: the internal shared core `distance` computes the dimensionless
haversine central angle in radians exactly as the spec's formula states:
`a = sin²(Δlat/2) + sin²(Δlon/2)·cos(lat1)·cos(lat2)`,
`c = 2·atan2(√a, √(1−a))`, returning `c` unscaled by Earth's radius,
for every pair of `Location` values. -/
theorem Location.distance_eq_specCentralAngle (self other : Location) :
    self.distance other = Location.specCentralAngle self other := by
  unfold Location.distance Location.specCentralAngle
  dsimp only
  have h :
      (Real.sin (toRadians (other.latitude - self.latitude) / 2))
          * (Real.sin (toRadians (other.latitude - self.latitude) / 2))
        + (Real.sin (toRadians (other.longitude - self.longitude) / 2))
          * (Real.sin (toRadians (other.longitude - self.longitude) / 2))
          * (Real.cos (toRadians self.latitude)) * (Real.cos (toRadians other.latitude))
      = (Real.sin (toRadians (other.latitude - self.latitude) / 2)) ^ 2
        + (Real.sin (toRadians (other.longitude - self.longitude) / 2)) ^ 2
          * Real.cos (toRadians self.latitude) * Real.cos (toRadians other.latitude) := by
    ring
  rw [h]

/-- C3: `distance_km` is the kilometers constant `6371.0087714` times the
central angle, and `distance_mi` is the miles constant `3958.76131603933`
times the same central angle, multiplied in that order (constant × angle)
with no other intermediate operations, for every pair of `Location`s. -/
theorem Location.distance_km_mi_scaling (a b : Location) :
    a.distance_km b = 6371.0087714 * a.distance b
      ∧ a.distance_mi b = 3958.76131603933 * a.distance b :=
  ⟨rfl, rfl⟩

/-- C4: the nautical-miles constant is derived as the miles constant
`3958.76131603933` multiplied by `1.1508` (not an independent constant),
and `distance_nautical_mi` is that derived constant times the central
angle, for every pair of `Location`s. -/
theorem Location.nautical_miles_derived (a b : Location) :
    Location.NAUTICAL_MILES = 3958.76131603933 * 1.1508
      ∧ a.distance_nautical_mi b = (3958.76131603933 * 1.1508) * a.distance b :=
  ⟨rfl, rfl⟩

/-- C5: `a.distance_km a = 0` for any `Location` `a` — the central angle
collapses to 0 because `atan2 0 1 = 0` — with no restriction on the
coordinate values. -/
theorem Location.distance_km_self (a : Location) : a.distance_km a = 0 := by
  unfold Location.distance_km
  rw [Location.distance_self, mul_zero]

/-- Helper: the haversine core is symmetric in its two arguments — swapping
the endpoints negates the angle differences and swaps the latitudes, and
the squared-sine terms are preserved. -/
theorem Location.distance_swap (a b : Location) : a.distance b = b.distance a := by
  unfold Location.distance
  dsimp only
  have hlat : Location.toRadians (a.latitude - b.latitude) / 2
      = -(Location.toRadians (b.latitude - a.latitude) / 2) := by
    unfold Location.toRadians; ring
  have hlon : Location.toRadians (a.longitude - b.longitude) / 2
      = -(Location.toRadians (b.longitude - a.longitude) / 2) := by
    unfold Location.toRadians; ring
  rw [hlat, hlon, Real.sin_neg, Real.sin_neg]
  ring_nf

/-- C6: for all `Location` pairs, `a.distance_km b = b.distance_km a`
exactly, and likewise for miles and nautical miles, because the formula is
symmetric in its two arguments. -/
theorem Location.distance_methods_symmetric (a b : Location) :
    a.distance_km b = b.distance_km a
      ∧ a.distance_mi b = b.distance_mi a
      ∧ a.distance_nautical_mi b = b.distance_nautical_mi a := by
  have h := Location.distance_swap a b
  refine ⟨?_, ?_, ?_⟩ <;>
    simp only [Location.distance_km, Location.distance_mi,
      Location.distance_nautical_mi, h]

/-- C10: the distance computation uses the longitudes only through the
single difference `other.longitude - self.longitude`: whenever the
latitudes agree and the computed longitude differences agree, all three
distance methods return identical results. -/
theorem Location.distance_lon_diff_only (a b a' b' : Location)
    (ha : a.latitude = a'.latitude) (hb : b.latitude = b'.latitude)
    (hd : b.longitude - a.longitude = b'.longitude - a'.longitude) :
    a.distance_mi b = a'.distance_mi b'
      ∧ a.distance_nautical_mi b = a'.distance_nautical_mi b'
      ∧ a.distance_km b = a'.distance_km b' := by
  have h : a.distance b = a'.distance b' := by
    unfold Location.distance
    rw [ha, hb, hd]
  refine ⟨?_, ?_, ?_⟩ <;>
    simp only [Location.distance_km, Location.distance_mi,
      Location.distance_nautical_mi, h]

/-- Witness for C10 at concrete coordinates: shifting both longitudes by
the same amount (here `+100`) leaves all three distances unchanged. -/
theorem Location.distance_lon_diff_only_witness :
    Location.distance_mi ⟨1, 2⟩ ⟨3, 5⟩ = Location.distance_mi ⟨1, 102⟩ ⟨3, 105⟩
      ∧ Location.distance_nautical_mi ⟨1, 2⟩ ⟨3, 5⟩
          = Location.distance_nautical_mi ⟨1, 102⟩ ⟨3, 105⟩
      ∧ Location.distance_km ⟨1, 2⟩ ⟨3, 5⟩ = Location.distance_km ⟨1, 102⟩ ⟨3, 105⟩ :=
  Location.distance_lon_diff_only ⟨1, 2⟩ ⟨3, 5⟩ ⟨1, 102⟩ ⟨3, 105⟩
    rfl rfl (by norm_num)

/-- Helper: an exact closed-form evaluation of the haversine core — between
the origin and the north pole the central angle is `π/2`. -/
theorem Location.distance_origin_pole :
    Location.distance ⟨0, 0⟩ ⟨90, 0⟩ = Real.pi / 2 := by
  unfold Location.distance Location.toRadians
  dsimp only
  have e1 : ((90 : ℝ) - 0) * (Real.pi / 180) / 2 = Real.pi / 4 := by ring
  have e2 : ((0 : ℝ) - 0) * (Real.pi / 180) / 2 = 0 := by ring
  have hs : Real.sin (Real.pi / 4) * Real.sin (Real.pi / 4) = 1 / 2 := by
    rw [Real.sin_pi_div_four, div_mul_div_comm,
      Real.mul_self_sqrt (by norm_num : (0 : ℝ) ≤ 2)]
    norm_num
  have hA : Real.sin (((90 : ℝ) - 0) * (Real.pi / 180) / 2)
        * Real.sin (((90 : ℝ) - 0) * (Real.pi / 180) / 2)
      + Real.sin (((0 : ℝ) - 0) * (Real.pi / 180) / 2)
        * Real.sin (((0 : ℝ) - 0) * (Real.pi / 180) / 2)
        * Real.cos ((0 : ℝ) * (Real.pi / 180)) * Real.cos ((90 : ℝ) * (Real.pi / 180))
      = 1 / 2 := by
    rw [e1, e2, Real.sin_zero, hs]
    ring
  rw [hA]
  have h12 : (1 : ℝ) - 1 / 2 = 1 / 2 := by norm_num
  rw [h12]
  have hpos : 0 < Real.sqrt (1 / 2) := Real.sqrt_pos.mpr (by norm_num)
  unfold Location.atan2
  rw [if_pos hpos, div_self hpos.ne', Real.arctan_one]
  ring

/-- C8 (amended): for all pairs whose central angle is nonzero, the
quotient `a.distance_mi b / a.distance_km b` equals the quotient of the
miles constant by the kilometers constant — exactly, in the real
embedding. At zero central angle the quotient is `0/0` instead (`NaN` in
the floating-point code), so the unrestricted claim fails. -/
theorem Location.mi_km_quotient (a b : Location) (h : a.distance b ≠ 0) :
    a.distance_mi b / a.distance_km b = Location.MILES / Location.KILOMETERS := by
  have hK : Location.KILOMETERS ≠ 0 := by unfold Location.KILOMETERS; norm_num
  unfold Location.distance_mi Location.distance_km
  rw [div_eq_div_iff (mul_ne_zero hK h) hK]
  ring

/-- C8 counterexample: at coinciding endpoints the quotient of
`distance_mi` by `distance_km` is `0 / 0 = 0` in the real embedding (the
floating-point code returns `NaN` there), which differs from the quotient
of the two constants — so the claim does not hold for all pairs. -/
theorem Location.mi_km_quotient_fails_at_zero :
    ¬ (Location.distance_mi ⟨0, 0⟩ ⟨0, 0⟩ / Location.distance_km ⟨0, 0⟩ ⟨0, 0⟩
        = Location.MILES / Location.KILOMETERS) := by
  intro hEq
  simp only [Location.distance_mi, Location.distance_km, Location.distance_self,
    mul_zero, zero_div] at hEq
  have hne : Location.MILES / Location.KILOMETERS ≠ 0 := by
    unfold Location.MILES Location.KILOMETERS
    norm_num
  exact hne hEq.symm

/-- Witness for the amended C8 at a concrete pair with nonzero central
angle (`π/2` between the origin and the north pole). -/
theorem Location.mi_km_quotient_witness :
    Location.distance_mi ⟨0, 0⟩ ⟨90, 0⟩ / Location.distance_km ⟨0, 0⟩ ⟨90, 0⟩
      = Location.MILES / Location.KILOMETERS :=
  Location.mi_km_quotient ⟨0, 0⟩ ⟨90, 0⟩ (by
    rw [Location.distance_origin_pole]
    exact (div_pos Real.pi_pos two_pos).ne')

/-- C7: constructing a `Location` from the single-precision pair
`(38.898556_f32, -77.037852_f32)` — that is, from the binary32
round-to-nearest values of those decimal literals, each widened exactly to
double precision — yields exactly the latitude and longitude whose
binary64 values are those of the literals `38.898555755615234` and
`-77.03784942626953`; the dyadic values are `10197023/2^18` and
`-10097505/2^17`, and all four literals lie in the binades assumed by the
rounding steps. -/
theorem Location.ofF32Pair_widening :
    Location.ofF32Pair (rndBinade 24 5 38.898556, -rndBinade 24 6 77.037852)
        = { latitude := ((rndBinade 53 5 38.898555755615234 : ℚ) : ℝ),
            longitude := ((-rndBinade 53 6 77.03784942626953 : ℚ) : ℝ) }
      ∧ rndBinade 24 5 38.898556 = 10197023 / 2 ^ 18
      ∧ rndBinade 24 6 77.037852 = 10097505 / 2 ^ 17
      ∧ ((2 : ℚ) ^ 5 ≤ 38.898556 ∧ (38.898556 : ℚ) < 2 ^ 6)
      ∧ ((2 : ℚ) ^ 6 ≤ 77.037852 ∧ (77.037852 : ℚ) < 2 ^ 7)
      ∧ ((2 : ℚ) ^ 5 ≤ 38.898555755615234 ∧ (38.898555755615234 : ℚ) < 2 ^ 6)
      ∧ ((2 : ℚ) ^ 6 ≤ 77.03784942626953 ∧ (77.03784942626953 : ℚ) < 2 ^ 7) := by
  refine ⟨?_, by unfold rndBinade; rw [round_eq]; norm_num,
    by unfold rndBinade; rw [round_eq]; norm_num,
    by norm_num, by norm_num, by norm_num, by norm_num⟩
  have h1 : rndBinade 24 5 (38.898556 : ℚ) = rndBinade 53 5 38.898555755615234 := by
    unfold rndBinade
    rw [round_eq, round_eq]
    norm_num
  have h2 : -rndBinade 24 6 (77.037852 : ℚ) = -rndBinade 53 6 77.03784942626953 := by
    unfold rndBinade
    rw [round_eq, round_eq]
    norm_num
  unfold Location.ofF32Pair
  dsimp only
  rw [h1, h2]
